import Mathlib

/-!
Shallow embedding of the repository source file
homeassistant/util/logging.py (Python module name
homeassistant.util.logging).

Modelling conventions:

* Python exceptions are values of PyExc.  The only point of the class
  hierarchy that matters to this file is whether the raised class derives
  from Exception, so that an except-Exception handler catches it, or only
  from BaseException, which such a handler does not catch.  Under the
  Python version this source targets (3.11 or later, it uses TypeVarTuple),
  asyncio.CancelledError, KeyboardInterrupt and SystemExit derive only from
  BaseException.
* One invocation of a Python callable is modelled by CallEffect: the list
  of log records that the invocation emitted, in order, together with
  either a returned value or a raised exception.  Re-raising propagates the
  same exception value, as Python re-raises the same exception object.
* A callable additionally receives the live call stack of its caller
  (innermost frame first), because log_exception inspects the stack.
  Calling a function pushes its frame; the wrappers in the source push a
  frame whose module is homeassistant.util.logging, since that is the file
  they are defined in.
* Tracebacks are modelled as lists of already formatted frame entries,
  ordered from the frame of the called function (outermost) down to the
  raise site (innermost), matching the order in which
  traceback.format_exc prints them.
-/

namespace HaLogging

/-- Classification of a Python exception class, keeping exactly the
distinctions the source file can observe. -/
inductive ExcClass where
  | cancelledError
  | keyboardInterrupt
  | systemExit
  | exception (name : String)
  deriving DecidableEq, Repr

/-- Whether the class derives from Exception.  Under Python 3.8 and later,
asyncio.CancelledError, KeyboardInterrupt and SystemExit derive only from
BaseException, so an except-Exception clause does not catch them. -/
def ExcClass.isExceptionSubclass : ExcClass → Bool
  | .exception _ => true
  | _ => false

/-- The printed name of the exception class, as it appears on the last line
of a formatted traceback. -/
def ExcClass.typeName : ExcClass → String
  | .cancelledError => "asyncio.exceptions.CancelledError"
  | .keyboardInterrupt => "KeyboardInterrupt"
  | .systemExit => "SystemExit"
  | .exception n => n

/-- A Python exception object: its class, its message, and the traceback
frames of the raise, from the frame of the called function (outermost) down
to the raise site (innermost), each entry already formatted as text.  The
frame of a catching wrapper is not part of tb; the wrapper prepends its own
entry when it inspects the traceback it caught. -/
structure PyExc where
  cls : ExcClass
  msg : String
  tb : List String
  deriving DecidableEq, Repr

/-- The last line of a formatted traceback for this exception. -/
def PyExc.excLine (e : PyExc) : String :=
  if e.msg = "" then e.cls.typeName ++ "\n"
  else e.cls.typeName ++ ": " ++ e.msg ++ "\n"

/-- A stack frame as log_exception observes it: the name of the module the
frame belongs to, or none when inspect.getmodule cannot determine it. -/
structure Frame where
  modName : Option String
  deriving DecidableEq, Repr

/-- A log record as emitted by the logging front end: destination logger
name, numeric severity level, and the fully formatted message. -/
structure LogRecord where
  loggerName : String
  level : Nat
  message : String
  deriving DecidableEq, Repr

/-- Numeric value of logging.ERROR in the Python standard library. -/
def ERROR_LEVEL : Nat := 40

/-- The value of the dunder name variable inside homeassistant/util/logging.py. -/
def loggingModuleName : String := "homeassistant.util.logging"

/-- Model of traceback.format_exc restricted to a given list of frame
entries: the standard header, the frame entries, then the exception line. -/
def formatExc (tbFrames : List String) (e : PyExc) : String :=
  "Traceback (most recent call last):\n" ++ String.join tbFrames ++ e.excLine

/-- Module-name lookup of log_exception: inspect.getmodule on the frame of
the immediate caller of log_exception (stack index 1), with the dunder name
of homeassistant/util/logging.py as the fallback when the module cannot be
determined.  stackTail is the live stack below the frame of log_exception
itself, so its head is the frame of the immediate caller. -/
def moduleNameOf (stackTail : List Frame) : String :=
  match stackTail with
  | [] => loggingModuleName
  | f :: _ =>
    match f.modName with
    | some n => n
    | none => loggingModuleName

/-- One invocation of a Python callable, observably: the log records it
emitted, in order, and either a returned value or a raised exception. -/
structure CallEffect (α : Type) where
  logs : List LogRecord
  result : Except PyExc α
  deriving Repr

/-- A Python callable of argument tuple A: given the arguments and the
live stack of the caller (innermost first), it produces a CallEffect. -/
def PyCallable (A α : Type) : Type := A → List Frame → CallEffect α

/-- Embedding of log_exception.  In source order it computes the module
name from the stack, the frame count and the truncated traceback text, and
only then calls format_err; when format_err itself raises, that exception
propagates out of log_exception unseen by any handler in this file, and no
record is emitted.  traceAtCatch is what inspect.trace() returns inside the
except clause of the caller: the entry for the catching frame followed by
the tb entries of the exception, so the negative limit passed to
traceback.format_exc keeps every entry except the first (the wrapper frame
is not printed). -/
def log_exception (stackTail : List Frame) (traceAtCatch : List String)
    (e : PyExc) (format_err : Except PyExc String) : Except PyExc LogRecord :=
  let module_name := moduleNameOf stackTail
  let frames := traceAtCatch.length - 1
  let exc_msg := formatExc (traceAtCatch.drop (traceAtCatch.length - frames)) e
  match format_err with
  | .error fe => .error fe
  | .ok friendly_msg =>
    .ok ⟨module_name, ERROR_LEVEL, friendly_msg ++ "\n" ++ exc_msg⟩

/-- The stack frame pushed by a call of the wrapper coroutine function
defined in homeassistant/util/logging.py. -/
def asyncWrapperFrame : Frame := ⟨some loggingModuleName⟩

/-- Formatted traceback entry for the await line inside the wrapper
coroutine function. -/
def asyncWrapperTb : String :=
  "  File homeassistant/util/logging.py, in _async_wrapper\n    await async_func(*args)\n"

/-- The stack frame pushed by a call of the synchronous wrapper defined in
homeassistant/util/logging.py. -/
def syncWrapperFrame : Frame := ⟨some loggingModuleName⟩

/-- Formatted traceback entry for the call line inside the synchronous
wrapper. -/
def syncWrapperTb : String :=
  "  File homeassistant/util/logging.py, in _sync_wrapper\n    func(*args)\n"

/-- The stack frame pushed by a call of the callback wrapper defined in
homeassistant/util/logging.py. -/
def callbackWrapperFrame : Frame := ⟨some loggingModuleName⟩

/-- Formatted traceback entry for the call line inside the callback
wrapper. -/
def callbackWrapperTb : String :=
  "  File homeassistant/util/logging.py, in _callback_wrapper\n    func(*args)\n"

/-- Embedding of the coroutine wrapper: await async_func(*args) under a
try; an Exception subclass is logged via log_exception and absorbed, any
other raise propagates; the successful value of the awaited call is
discarded.  An exception raised by format_err inside the except clause
propagates to the invoker. -/
def _async_wrapper {A α : Type} (async_func : PyCallable A α)
    (format_err : A → Except PyExc String) : PyCallable A Unit :=
  fun args st =>
    let eff := async_func args (asyncWrapperFrame :: st)
    match eff.result with
    | .ok _ => ⟨eff.logs, .ok ()⟩
    | .error e =>
      if e.cls.isExceptionSubclass then
        match log_exception (asyncWrapperFrame :: st) (asyncWrapperTb :: e.tb)
            e (format_err args) with
        | .ok r => ⟨eff.logs ++ [r], .ok ()⟩
        | .error fe => ⟨eff.logs, .error fe⟩
      else ⟨eff.logs, .error e⟩

/-- Embedding of the synchronous wrapper: func(*args) under a try; an
Exception subclass is logged via log_exception and absorbed, any other
raise propagates; the return value of func is discarded.  An exception
raised by format_err inside the except clause propagates to the invoker. -/
def _sync_wrapper {A α : Type} (func : PyCallable A α)
    (format_err : A → Except PyExc String) : PyCallable A Unit :=
  fun args st =>
    let eff := func args (syncWrapperFrame :: st)
    match eff.result with
    | .ok _ => ⟨eff.logs, .ok ()⟩
    | .error e =>
      if e.cls.isExceptionSubclass then
        match log_exception (syncWrapperFrame :: st) (syncWrapperTb :: e.tb)
            e (format_err args) with
        | .ok r => ⟨eff.logs ++ [r], .ok ()⟩
        | .error fe => ⟨eff.logs, .error fe⟩
      else ⟨eff.logs, .error e⟩

/-- Embedding of the callback wrapper, identical in behaviour to the
synchronous wrapper; in the source it additionally carries the callback
capability tag. -/
def _callback_wrapper {A α : Type} (func : PyCallable A α)
    (format_err : A → Except PyExc String) : PyCallable A Unit :=
  fun args st =>
    let eff := func args (callbackWrapperFrame :: st)
    match eff.result with
    | .ok _ => ⟨eff.logs, .ok ()⟩
    | .error e =>
      if e.cls.isExceptionSubclass then
        match log_exception (callbackWrapperFrame :: st) (callbackWrapperTb :: e.tb)
            e (format_err args) with
        | .ok r => ⟨eff.logs ++ [r], .ok ()⟩
        | .error fe => ⟨eff.logs, .error fe⟩
      else ⟨eff.logs, .error e⟩

/-- A Python callable value as catch_log_exception sees it at wrap time:
either an underlying function, carrying the two classification bits the
source queries (is it a coroutine function, does it carry the callback
capability tag) together with its call behaviour, or a functools
argument-binding layer around another such value. -/
inductive PyFunc (A α : Type) where
  | base (isCoroFn : Bool) (hasCallbackTag : Bool) (behavior : PyCallable A α)
  | layer (f : PyFunc A α)

/-- The while loop of catch_log_exception: peel functools layers until the
underlying function is reached. -/
def checkFuncOf {A α : Type} : PyFunc A α → PyFunc A α
  | .base c cb b => .base c cb b
  | .layer f => checkFuncOf f

/-- Model of asyncio.iscoroutinefunction, which itself also unwraps
functools argument-binding layers. -/
def iscoroutinefunction {A α : Type} : PyFunc A α → Bool
  | .base c _ _ => c
  | .layer f => iscoroutinefunction f

/-- Modelled from the spec: homeassistant.core.is_callback (the repository
file homeassistant/core.py is not among the given sources).  The spec
treats the callback capability as an opaque tag the execution model
assigns to a function, so the model reads it as a boolean carried by the
underlying function; a raw argument-binding layer does not itself carry
the tag. -/
def is_callback {A α : Type} : PyFunc A α → Bool
  | .base _ cb _ => cb
  | .layer _ => false

/-- Calling a PyFunc: argument-binding layers are transparent at call
time. -/
def PyFunc.call {A α : Type} : PyFunc A α → PyCallable A α
  | .base _ _ b => b
  | .layer f => PyFunc.call f

/-- The three execution shapes distinguished by the source. -/
inductive Shape where
  | coroutineFunction
  | callbackShape
  | plainSync
  deriving DecidableEq, Repr

/-- The execution shape of a callable value itself, classified the way the
source classifies: unwrap argument-binding layers, test for coroutine
function, then for the callback tag, else plain synchronous. -/
def PyFunc.shapeOf {A α : Type} (f : PyFunc A α) : Shape :=
  if iscoroutinefunction (checkFuncOf f) then .coroutineFunction
  else if is_callback (checkFuncOf f) then .callbackShape
  else .plainSync

/-- The value returned by catch_log_exception: its execution shape
(decided once, at wrap time) and its call behaviour. -/
structure WrappedResult (A : Type) where
  shape : Shape
  run : PyCallable A Unit

/-- Embedding of catch_log_exception: peel functools layers to find the
underlying function, classify it once, and return the wrapper of the
matching shape closed over the original (layered) callable and
format_err. -/
def catch_log_exception {A α : Type} (func : PyFunc A α)
    (format_err : A → Except PyExc String) : WrappedResult A :=
  let check_func := checkFuncOf func
  if iscoroutinefunction check_func then
    ⟨.coroutineFunction, _async_wrapper (PyFunc.call func) format_err⟩
  else if is_callback check_func then
    ⟨.callbackShape, _callback_wrapper (PyFunc.call func) format_err⟩
  else
    ⟨.plainSync, _sync_wrapper (PyFunc.call func) format_err⟩

/-- An already created coroutine object: its dunder name and the effect of
awaiting it (a coroutine is awaited at most once, so one CallEffect). -/
structure CoroObj (α : Type) where
  name : String
  eff : CallEffect α

/-- The stack frame pushed by the inner coroutine wrapper defined in
homeassistant/util/logging.py. -/
def coroWrapperFrame : Frame := ⟨some loggingModuleName⟩

/-- Formatted traceback entry for the await line inside the inner
coroutine wrapper. -/
def coroWrapperTb : String :=
  "  File homeassistant/util/logging.py, in coro_wrapper\n    return await target\n"

/-- Embedding of catch_log_coro_exception: returns the coroutine produced
by calling the inner wrapper, which awaits the target under a try and
returns its value on success; an Exception subclass is logged via
log_exception and replaced by None, any other raise propagates; an
exception raised by format_err propagates.  The immediate caller of
log_exception is the inner wrapper itself, whose frame belongs to
homeassistant/util/logging.py. -/
def catch_log_coro_exception {α : Type} (target : CoroObj α)
    (format_err : Except PyExc String) : CoroObj (Option α) :=
  { name := "coro_wrapper"
    eff :=
      match target.eff.result with
      | .ok v => ⟨target.eff.logs, .ok (some v)⟩
      | .error e =>
        if e.cls.isExceptionSubclass then
          match log_exception [coroWrapperFrame] (coroWrapperTb :: e.tb)
              e format_err with
          | .ok r => ⟨target.eff.logs ++ [r], .ok none⟩
          | .error fe => ⟨target.eff.logs, .error fe⟩
        else ⟨target.eff.logs, .error e⟩ }

/-- Formatted stack entry for the frame of async_create_catching_coro
itself, the last entry of the traceback.extract_stack result it captures. -/
def createCatchingCoroFrame : String :=
  "  File homeassistant/util/logging.py, in async_create_catching_coro\n    trace = traceback.extract_stack()\n"

/-- Embedding of async_create_catching_coro.  callerStack is the stack of
its caller at wrap time, outermost first, each frame already formatted as
traceback.format_list would print it; traceback.extract_stack returns that
stack with the frame of async_create_catching_coro itself appended, and
the synthesized context message drops that last entry and embeds the
dunder name of the target. -/
def async_create_catching_coro {α : Type} (target : CoroObj α)
    (callerStack : List String) : CoroObj (Option α) :=
  let trace := callerStack ++ [createCatchingCoroFrame]
  catch_log_coro_exception target
    (.ok ("Exception in " ++ target.name ++ " called from\n " ++
      String.join trace.dropLast))

/-- State touched by HomeAssistantQueueHandler.close: whether the handler
still holds a reference to its listener, how many stop signals the
listener object has received, and how many times the base-class close ran.
The base-class close only deregisters the handler from the library
registry and raises nothing. -/
structure HomeAssistantQueueHandler where
  listenerAttached : Bool
  listenerStopCalls : Nat
  baseCloseCalls : Nat
  deriving DecidableEq, Repr

/-- Embedding of HomeAssistantQueueHandler.close: run the base-class
close, then, only when a listener reference is held, signal the listener
to stop and clear the reference.  The function is total: no branch
raises. -/
def HomeAssistantQueueHandler.close (s : HomeAssistantQueueHandler) :
    HomeAssistantQueueHandler :=
  let s1 : HomeAssistantQueueHandler :=
    { s with baseCloseCalls := s.baseCloseCalls + 1 }
  if s1.listenerAttached then
    { s1 with
      listenerAttached := false
      listenerStopCalls := s1.listenerStopCalls + 1 }
  else s1

/-- Model of logging.Logger.addHandler: appends the handler unless it is
already installed.  Handlers are identified by numeric identity, matching
object identity in Python. -/
def addHandler (handlers : List Nat) (h : Nat) : List Nat :=
  if h ∈ handlers then handlers else handlers ++ [h]

/-- Model of logging.Logger.removeHandler: removes the first occurrence of
the handler when present, otherwise leaves the list unchanged. -/
def removeHandler (handlers : List Nat) (h : Nat) : List Nat :=
  handlers.erase h

/-- An identity for the freshly constructed queue handler: distinct from
every handler already installed. -/
def freshHandlerId (handlers : List Nat) : Nat :=
  handlers.foldr max 0 + 1

/-- Body of the migration loop of async_activate_log_queue_handler, run
once per entry of the snapshot of the top-level handler list: the queue
handler itself is skipped, every other handler is removed from the live
top-level list and appended to the migrated list. -/
def migrateStep (queue_handler : Nat) (acc : List Nat × List Nat)
    (handler : Nat) : List Nat × List Nat :=
  if handler = queue_handler then acc
  else (removeHandler acc.1 handler, acc.2 ++ [handler])

/-- The observable result of activating the queue relay: the top-level
handler list of the root logger, the handler list the queue listener was
constructed with, and whether the listener thread was started. -/
structure ActivationResult where
  rootHandlers : List Nat
  listenerHandlers : List Nat
  listenerStarted : Bool
  deriving DecidableEq, Repr

/-- Embedding of async_activate_log_queue_handler: construct a fresh queue
handler, install it on the root logger, then iterate over a snapshot of
the top-level handler list, skipping the queue handler itself and moving
every other handler off the root logger into the migrated list; finally
construct the listener over the migrated handlers, attach it to the queue
handler, and start it.  The hass argument of the source is never used in
the body and is omitted. -/
def async_activate_log_queue_handler (rootHandlers : List Nat) :
    ActivationResult :=
  let queue_handler := freshHandlerId rootHandlers
  let root1 := addHandler rootHandlers queue_handler
  let loop := root1.foldl (migrateStep queue_handler) (root1, [])
  ⟨loop.1, loop.2, true⟩

/-- A callable that raises the given exception, emitting no records of its
own, whatever the arguments and caller stack. -/
def raisingCallable {A α : Type} (e : PyExc) : PyCallable A α :=
  fun _ _ => ⟨[], .error e⟩

/-- A callable that returns the given value, emitting no records of its
own, whatever the arguments and caller stack. -/
def returningCallable {A α : Type} (v : α) : PyCallable A α :=
  fun _ _ => ⟨[], .ok v⟩

/-- The record the wrappers emit when they catch e and the context message
producer returns friendly: logger named after the wrapper module, error
severity, the friendly message and the truncated traceback on two lines. -/
def wrapperLogRecord (e : PyExc) (friendly : String) : LogRecord :=
  ⟨loggingModuleName, ERROR_LEVEL, friendly ++ "\n" ++ formatExc e.tb e⟩

/-- n nested functools argument-binding layers around a callable value. -/
def layerN {A α : Type} : Nat → PyFunc A α → PyFunc A α
  | 0, f => f
  | n + 1, f => .layer (layerN n f)

/-- When the traceback at the catch site is the wrapper entry followed by
the tb of the exception and the context message producer returns normally,
log_exception emits one record: the truncated trace drops exactly the
wrapper entry. -/
theorem log_exception_cons_ok (stackTail : List Frame) (w : String)
    (e : PyExc) (friendly : String) :
    log_exception stackTail (w :: e.tb) e (.ok friendly) =
      .ok ⟨moduleNameOf stackTail, ERROR_LEVEL,
        friendly ++ "\n" ++ formatExc e.tb e⟩ := by
  simp only [log_exception, List.length_cons]
  have h1 : e.tb.length + 1 - (e.tb.length + 1 - 1) = 1 := by omega
  simp [h1]

/-- The synchronous wrapper on a callable that raises an Exception
subclass, with a total context message producer: one record, normal
return. -/
theorem sync_wrapper_raise {A α : Type} (args : A) (st : List Frame)
    (e : PyExc) (fmsg : A → String) (h : e.cls.isExceptionSubclass = true) :
    _sync_wrapper (raisingCallable (α := α) e) (fun a => .ok (fmsg a)) args st =
      ⟨[wrapperLogRecord e (fmsg args)], .ok ()⟩ := by
  simp [_sync_wrapper, raisingCallable, h, log_exception_cons_ok,
    moduleNameOf, syncWrapperFrame, wrapperLogRecord]

/-- The coroutine wrapper on a callable that raises an Exception subclass,
with a total context message producer: one record, normal return. -/
theorem async_wrapper_raise {A α : Type} (args : A) (st : List Frame)
    (e : PyExc) (fmsg : A → String) (h : e.cls.isExceptionSubclass = true) :
    _async_wrapper (raisingCallable (α := α) e) (fun a => .ok (fmsg a)) args st =
      ⟨[wrapperLogRecord e (fmsg args)], .ok ()⟩ := by
  simp [_async_wrapper, raisingCallable, h, log_exception_cons_ok,
    moduleNameOf, asyncWrapperFrame, wrapperLogRecord]

/-- The callback wrapper on a callable that raises an Exception subclass,
with a total context message producer: one record, normal return. -/
theorem callback_wrapper_raise {A α : Type} (args : A) (st : List Frame)
    (e : PyExc) (fmsg : A → String) (h : e.cls.isExceptionSubclass = true) :
    _callback_wrapper (raisingCallable (α := α) e) (fun a => .ok (fmsg a)) args st =
      ⟨[wrapperLogRecord e (fmsg args)], .ok ()⟩ := by
  simp [_callback_wrapper, raisingCallable, h, log_exception_cons_ok,
    moduleNameOf, callbackWrapperFrame, wrapperLogRecord]

/-- The synchronous wrapper forwards the logs of a successful inner call
and discards its value. -/
theorem sync_wrapper_of_ok {A α : Type} (f : PyCallable A α)
    (fe : A → Except PyExc String) (args : A) (st : List Frame)
    (ls : List LogRecord) (v : α)
    (hf : f args (syncWrapperFrame :: st) = ⟨ls, .ok v⟩) :
    _sync_wrapper f fe args st = ⟨ls, .ok ()⟩ := by
  simp [_sync_wrapper, hf]

/-- The coroutine wrapper forwards the logs of a successful inner call and
discards its value. -/
theorem async_wrapper_of_ok {A α : Type} (f : PyCallable A α)
    (fe : A → Except PyExc String) (args : A) (st : List Frame)
    (ls : List LogRecord) (v : α)
    (hf : f args (asyncWrapperFrame :: st) = ⟨ls, .ok v⟩) :
    _async_wrapper f fe args st = ⟨ls, .ok ()⟩ := by
  simp [_async_wrapper, hf]

/-- The callback wrapper forwards the logs of a successful inner call and
discards its value. -/
theorem callback_wrapper_of_ok {A α : Type} (f : PyCallable A α)
    (fe : A → Except PyExc String) (args : A) (st : List Frame)
    (ls : List LogRecord) (v : α)
    (hf : f args (callbackWrapperFrame :: st) = ⟨ls, .ok v⟩) :
    _callback_wrapper f fe args st = ⟨ls, .ok ()⟩ := by
  simp [_callback_wrapper, hf]

/-- The call behaviour catch_log_exception attaches to a coroutine
function: the coroutine wrapper, whatever the callback bit. -/
theorem catch_base_run_async {A α : Type} (cb : Bool) (b : PyCallable A α)
    (fe : A → Except PyExc String) :
    (catch_log_exception (.base true cb b) fe).run = _async_wrapper b fe := by
  cases cb <;> rfl

/-- The call behaviour catch_log_exception attaches to a function carrying
the callback tag: the callback wrapper. -/
theorem catch_base_run_callback {A α : Type} (b : PyCallable A α)
    (fe : A → Except PyExc String) :
    (catch_log_exception (.base false true b) fe).run = _callback_wrapper b fe :=
  rfl

/-- The call behaviour catch_log_exception attaches to a plain synchronous
function: the synchronous wrapper. -/
theorem catch_base_run_sync {A α : Type} (b : PyCallable A α)
    (fe : A → Except PyExc String) :
    (catch_log_exception (.base false false b) fe).run = _sync_wrapper b fe :=
  rfl

/-- C1 counterexample: KeyboardInterrupt is a non-cancellation exception,
yet a call of a wrapped function that raises it does not return normally
and emits no log record: the except clause of the wrapper matches only
Exception subclasses, so the raise escapes to the invoker, refuting the
claim as stated at this input. -/
theorem C1_counterexample_keyboard_interrupt :
    (catch_log_exception
        (.base false false (raisingCallable (A := Unit) (α := Unit)
          ⟨.keyboardInterrupt, "", ["  File app.py, in boom\n"]⟩))
        (fun _ => .ok "ctx")).run () []
      = ⟨[], .error ⟨.keyboardInterrupt, "", ["  File app.py, in boom\n"]⟩⟩ ∧
    ExcClass.keyboardInterrupt ≠ ExcClass.cancelledError := by
  exact ⟨rfl, by decide⟩

/-- C1 (amended): for every function wrapped by catch_log_exception, in
each of the three shapes (the classification bits c, cb range over all
values), if an invocation of the original raises an exception that is an
Exception subclass (a condition that excludes the cancellation signal),
the wrapped call returns normally and exactly one error-level log record
is emitted, containing the friendly message computed by the context
message producer on the arguments of the call and the truncated stack
trace; and when a second wrapper layer of any shape is nested around the
wrapped function, the call still emits exactly that one record, because
the inner layer absorbs the raise. -/
theorem C1_amended_exception_logged_once {A α : Type} (args : A)
    (st : List Frame) (e : PyExc) (fmsg : A → String) (c cb c2 cb2 : Bool)
    (h : e.cls.isExceptionSubclass = true) :
    (catch_log_exception (.base c cb (raisingCallable (α := α) e))
        (fun a => .ok (fmsg a))).run args st
      = ⟨[wrapperLogRecord e (fmsg args)], .ok ()⟩ ∧
    (catch_log_exception (.base c2 cb2
        ((catch_log_exception (.base c cb (raisingCallable (α := α) e))
            (fun a => .ok (fmsg a))).run))
        (fun a => .ok (fmsg a))).run args st
      = ⟨[wrapperLogRecord e (fmsg args)], .ok ()⟩ := by
  have hinner : ∀ st' : List Frame,
      (catch_log_exception (.base c cb (raisingCallable (α := α) e))
          (fun a => .ok (fmsg a))).run args st'
        = ⟨[wrapperLogRecord e (fmsg args)], .ok ()⟩ := by
    intro st'
    cases c with
    | true =>
      rw [catch_base_run_async]
      exact async_wrapper_raise args st' e fmsg h
    | false =>
      cases cb with
      | true =>
        rw [catch_base_run_callback]
        exact callback_wrapper_raise args st' e fmsg h
      | false =>
        rw [catch_base_run_sync]
        exact sync_wrapper_raise args st' e fmsg h
  refine ⟨hinner st, ?_⟩
  cases c2 with
  | true =>
    rw [catch_base_run_async]
    exact async_wrapper_of_ok _ _ args st _ () (hinner _)
  | false =>
    cases cb2 with
    | true =>
      rw [catch_base_run_callback]
      exact callback_wrapper_of_ok _ _ args st _ () (hinner _)
    | false =>
      rw [catch_base_run_sync]
      exact sync_wrapper_of_ok _ _ args st _ () (hinner _)

/-- Witness for the amended C1: a concrete ValueError through a plain
synchronous wrap, nested once more in a plain synchronous wrap. -/
theorem C1_amended_witness :
    (⟨.exception "ValueError", "x", ["  File test.py, in f\n"]⟩ : PyExc).cls.isExceptionSubclass
        = true ∧
    ((catch_log_exception
        (.base false false (raisingCallable (A := Nat) (α := Unit)
          ⟨.exception "ValueError", "x", ["  File test.py, in f\n"]⟩))
        (fun _ => .ok "f failed")).run 7 []
      = ⟨[wrapperLogRecord ⟨.exception "ValueError", "x", ["  File test.py, in f\n"]⟩
          "f failed"], .ok ()⟩ ∧
    (catch_log_exception (.base false false
        ((catch_log_exception
          (.base false false (raisingCallable (A := Nat) (α := Unit)
            ⟨.exception "ValueError", "x", ["  File test.py, in f\n"]⟩))
          (fun _ => .ok "f failed")).run))
        (fun _ => .ok "f failed")).run 7 []
      = ⟨[wrapperLogRecord ⟨.exception "ValueError", "x", ["  File test.py, in f\n"]⟩
          "f failed"], .ok ()⟩) :=
  ⟨rfl, C1_amended_exception_logged_once 7 []
    ⟨.exception "ValueError", "x", ["  File test.py, in f\n"]⟩
    (fun _ => "f failed") false false false false rfl⟩

/-- C2: for every function wrapped by catch_log_exception, in each of the
three shapes, when an invocation of the original raises the cancellation
signal of the host, the wrapped call re-raises that exact exception value
and emits zero log records. -/
theorem C2_cancellation_reraised_unlogged {A α : Type} (args : A)
    (st : List Frame) (e : PyExc) (c cb : Bool)
    (fe : A → Except PyExc String) (h : e.cls = .cancelledError) :
    (catch_log_exception (.base c cb (raisingCallable (α := α) e)) fe).run args st
      = ⟨[], .error e⟩ := by
  have hx : e.cls.isExceptionSubclass = false := by
    rw [h]
    rfl
  cases c with
  | true =>
    rw [catch_base_run_async]
    simp [_async_wrapper, raisingCallable, hx]
  | false =>
    cases cb with
    | true =>
      rw [catch_base_run_callback]
      simp [_callback_wrapper, raisingCallable, hx]
    | false =>
      rw [catch_base_run_sync]
      simp [_sync_wrapper, raisingCallable, hx]

/-- Witness for C2: a concrete CancelledError through a coroutine-shaped
wrap. -/
theorem C2_witness :
    (⟨.cancelledError, "", ["  File task.py, in run\n"]⟩ : PyExc).cls = .cancelledError ∧
    (catch_log_exception
        (.base true false (raisingCallable (A := Unit) (α := Unit)
          ⟨.cancelledError, "", ["  File task.py, in run\n"]⟩))
        (fun _ => .ok "ctx")).run () []
      = ⟨[], .error ⟨.cancelledError, "", ["  File task.py, in run\n"]⟩⟩ :=
  ⟨rfl, C2_cancellation_reraised_unlogged () []
    ⟨.cancelledError, "", ["  File task.py, in run\n"]⟩ true false
    (fun _ => .ok "ctx") rfl⟩

/-- C5: for every function wrapped by catch_log_exception, in each of the
three shapes (classification bits range over all values), a call whose
original invocation succeeds emits zero log records and returns no value:
the returned value of the original is discarded in every shape. -/
theorem C5_success_silent_value_discarded {A α : Type} (args : A)
    (st : List Frame) (v : α) (c cb : Bool)
    (fe : A → Except PyExc String) :
    (catch_log_exception (.base c cb (returningCallable v)) fe).run args st
      = ⟨[], .ok ()⟩ := by
  cases c <;> cases cb <;> rfl

/-- C3 counterexample: a wrapped call invoked from a frame whose module is
custom_components.hue.light fails with a ValueError; the emitted record
goes to the logger named homeassistant.util.logging (the module of the
wrapper, which is the immediate caller of log_exception), not to a logger
named after the originating module of the caller, refuting the claim as
stated at this input. -/
theorem C3_counterexample_caller_module_ignored :
    (((catch_log_exception
        (.base false false (raisingCallable (A := Unit) (α := Unit)
          ⟨.exception "ValueError", "x",
            ["  File custom_components/hue/light.py, in update\n"]⟩))
        (fun _ => .ok "update failed")).run ()
        [⟨some "custom_components.hue.light"⟩]).logs).map LogRecord.loggerName
      = [loggingModuleName] ∧
    loggingModuleName ≠ "custom_components.hue.light" := by
  exact ⟨rfl, by decide⟩

/-- C3 (amended): for every failure caught inside a wrapped call, the
error-level record is emitted through the logger named after the module of
the immediate calling frame of log_exception; since log_exception is only
ever called by the wrapper bodies, which live in
homeassistant/util/logging.py, that logger is always named
homeassistant.util.logging, whatever module the wrapped call was invoked
from, and the fallback taken when a module cannot be determined is that
same name. -/
theorem C3_amended_logger_named_after_wrapper_module {A α : Type}
    (args : A) (st : List Frame) (e : PyExc) (fmsg : A → String)
    (c cb : Bool) (h : e.cls.isExceptionSubclass = true) :
    (((catch_log_exception (.base c cb (raisingCallable (α := α) e))
        (fun a => .ok (fmsg a))).run args st).logs).map LogRecord.loggerName
      = [loggingModuleName] ∧
    moduleNameOf (Frame.mk none :: st) = loggingModuleName := by
  constructor
  · cases c with
    | true =>
      rw [catch_base_run_async, async_wrapper_raise args st e fmsg h]
      rfl
    | false =>
      cases cb with
      | true =>
        rw [catch_base_run_callback, callback_wrapper_raise args st e fmsg h]
        rfl
      | false =>
        rw [catch_base_run_sync, sync_wrapper_raise args st e fmsg h]
        rfl
  · rfl

/-- Witness for the amended C3: a concrete ValueError through a
callback-shaped wrap invoked from a custom-integration module. -/
theorem C3_amended_witness :
    (⟨.exception "ValueError", "x", ["  File x.py, in f\n"]⟩ : PyExc).cls.isExceptionSubclass
        = true ∧
    ((((catch_log_exception
        (.base false true (raisingCallable (A := Unit) (α := Unit)
          ⟨.exception "ValueError", "x", ["  File x.py, in f\n"]⟩))
        (fun _ => .ok "f failed")).run ()
        [⟨some "custom_components.demo"⟩]).logs).map LogRecord.loggerName
      = [loggingModuleName] ∧
    moduleNameOf (Frame.mk none :: [⟨some "custom_components.demo"⟩])
      = loggingModuleName) :=
  ⟨rfl, C3_amended_logger_named_after_wrapper_module ()
    [⟨some "custom_components.demo"⟩]
    ⟨.exception "ValueError", "x", ["  File x.py, in f\n"]⟩
    (fun _ => "f failed") false true rfl⟩

/-- C4: catch_log_exception classifies its input once, at wrap time, after
peeling any number of functools argument-binding layers: a coroutine
function yields the coroutine-function shape, otherwise the callback tag
yields the callback shape, otherwise the plain synchronous shape; and the
shape recorded in the wrapped value equals the shape of the original
callable value, so wrapping preserves execution shape. -/
theorem C4_shape_classified_once_after_unwrapping {A α : Type} (n : Nat)
    (c cb : Bool) (b : PyCallable A α) (fe : A → Except PyExc String) :
    (catch_log_exception (layerN n (.base c cb b)) fe).shape
      = (if c then Shape.coroutineFunction
         else if cb then Shape.callbackShape
         else Shape.plainSync) ∧
    (catch_log_exception (layerN n (.base c cb b)) fe).shape
      = (layerN n (.base c cb b)).shapeOf := by
  have hunwrap : checkFuncOf (layerN n (.base (A := A) (α := α) c cb b))
      = .base c cb b := by
    induction n with
    | zero => rfl
    | succ n ih =>
      simp only [layerN, checkFuncOf]
      exact ih
  have hc : iscoroutinefunction
      (checkFuncOf (layerN n (.base (A := A) (α := α) c cb b))) = c := by
    rw [hunwrap]
    rfl
  have hcb : is_callback
      (checkFuncOf (layerN n (.base (A := A) (α := α) c cb b))) = cb := by
    rw [hunwrap]
    rfl
  simp only [catch_log_exception, PyFunc.shapeOf, hc, hcb]
  cases c <;> cases cb <;> simp

/-- C9: for every wrapper produced by catch_log_exception, in each of the
three shapes, and for the coroutine wrapper of catch_log_coro_exception, a
raised exception that is not an Exception subclass (the cancellation
signal, KeyboardInterrupt, SystemExit) propagates to the invoker as the
same exception value, and the wrapper emits no log record. -/
theorem C9_non_exception_raise_propagates_unlogged {A α : Type}
    (args : A) (st : List Frame) (e : PyExc) (c cb : Bool)
    (fe : A → Except PyExc String) (nm : String) (ls : List LogRecord)
    (fe2 : Except PyExc String) (h : e.cls.isExceptionSubclass = false) :
    (catch_log_exception (.base c cb (raisingCallable (α := α) e)) fe).run args st
      = ⟨[], .error e⟩ ∧
    (catch_log_coro_exception (α := α) ⟨nm, ⟨ls, .error e⟩⟩ fe2).eff
      = ⟨ls, .error e⟩ := by
  constructor
  · cases c with
    | true =>
      rw [catch_base_run_async]
      simp [_async_wrapper, raisingCallable, h]
    | false =>
      cases cb with
      | true =>
        rw [catch_base_run_callback]
        simp [_callback_wrapper, raisingCallable, h]
      | false =>
        rw [catch_base_run_sync]
        simp [_sync_wrapper, raisingCallable, h]
  · simp [catch_log_coro_exception, h]

/-- Witness for C9: a concrete SystemExit through a plain synchronous wrap
and through the coroutine wrapper. -/
theorem C9_witness :
    (⟨.systemExit, "0", ["  File x.py, in f\n"]⟩ : PyExc).cls.isExceptionSubclass
        = false ∧
    ((catch_log_exception
        (.base false false (raisingCallable (A := Unit) (α := Unit)
          ⟨.systemExit, "0", ["  File x.py, in f\n"]⟩))
        (fun _ => .ok "ctx")).run () []
      = ⟨[], .error ⟨.systemExit, "0", ["  File x.py, in f\n"]⟩⟩ ∧
    (catch_log_coro_exception (α := Unit)
        ⟨"job", ⟨[], .error ⟨.systemExit, "0", ["  File x.py, in f\n"]⟩⟩⟩
        (.ok "ctx")).eff
      = ⟨[], .error ⟨.systemExit, "0", ["  File x.py, in f\n"]⟩⟩) :=
  ⟨rfl, C9_non_exception_raise_propagates_unlogged () []
    ⟨.systemExit, "0", ["  File x.py, in f\n"]⟩ false false
    (fun _ => .ok "ctx") "job" [] (.ok "ctx") rfl⟩

/-- C10: when the context message producer itself raises while the wrapper
is handling a caught Exception subclass, that exception escapes the
wrapped call to the invoker (in every shape, and likewise for the
coroutine wrapper), and no record is emitted: the call of format_err
inside log_exception is outside the try of the wrapper. -/
theorem C10_format_err_exception_escapes {A α : Type} (args : A)
    (st : List Frame) (e fexc : PyExc) (c cb : Bool) (nm : String)
    (h : e.cls.isExceptionSubclass = true) :
    (catch_log_exception (.base c cb (raisingCallable (α := α) e))
        (fun _ => .error fexc)).run args st = ⟨[], .error fexc⟩ ∧
    (catch_log_coro_exception (α := α) ⟨nm, ⟨[], .error e⟩⟩ (.error fexc)).eff
      = ⟨[], .error fexc⟩ := by
  constructor
  · cases c with
    | true =>
      rw [catch_base_run_async]
      simp [_async_wrapper, raisingCallable, h, log_exception]
    | false =>
      cases cb with
      | true =>
        rw [catch_base_run_callback]
        simp [_callback_wrapper, raisingCallable, h, log_exception]
      | false =>
        rw [catch_base_run_sync]
        simp [_sync_wrapper, raisingCallable, h, log_exception]
  · simp [catch_log_coro_exception, h, log_exception]

/-- Witness for C10: a RuntimeError raised by the context message producer
while a ValueError is being handled escapes a plain synchronous wrap and
the coroutine wrapper. -/
theorem C10_witness :
    (⟨.exception "ValueError", "x", ["  File x.py, in f\n"]⟩ : PyExc).cls.isExceptionSubclass
        = true ∧
    ((catch_log_exception
        (.base false false (raisingCallable (A := Unit) (α := Unit)
          ⟨.exception "ValueError", "x", ["  File x.py, in f\n"]⟩))
        (fun _ => .error ⟨.exception "RuntimeError", "bad fmt", []⟩)).run () []
      = ⟨[], .error ⟨.exception "RuntimeError", "bad fmt", []⟩⟩ ∧
    (catch_log_coro_exception (α := Unit)
        ⟨"job", ⟨[], .error ⟨.exception "ValueError", "x", ["  File x.py, in f\n"]⟩⟩⟩
        (.error ⟨.exception "RuntimeError", "bad fmt", []⟩)).eff
      = ⟨[], .error ⟨.exception "RuntimeError", "bad fmt", []⟩⟩) :=
  ⟨rfl, C10_format_err_exception_escapes () []
    ⟨.exception "ValueError", "x", ["  File x.py, in f\n"]⟩
    ⟨.exception "RuntimeError", "bad fmt", []⟩ false false "job" rfl⟩

/-- C6 counterexample: KeyboardInterrupt is a non-cancellation failure of
the target, yet the coroutine produced by async_create_catching_coro does
not log it and does not return None: the except clause of the inner
wrapper matches only Exception subclasses, so the raise propagates to the
awaiter with zero records, refuting the claim as stated at this input. -/
theorem C6_counterexample_keyboard_interrupt_escapes :
    (async_create_catching_coro (α := Unit)
        ⟨"async_update",
          ⟨[], .error ⟨.keyboardInterrupt, "", ["  File job.py, in work\n"]⟩⟩⟩
        ["  File main.py, in setup\n"]).eff
      = ⟨[], .error ⟨.keyboardInterrupt, "", ["  File job.py, in work\n"]⟩⟩ ∧
    ExcClass.keyboardInterrupt ≠ ExcClass.cancelledError := by
  exact ⟨rfl, by decide⟩

/-- C6 (amended): async_create_catching_coro captures the call stack of
its caller at wrap time, excluding its own frame, and yields a coroutine
that returns the original result of the target when the target succeeds;
on a failure that is an Exception subclass (a condition that excludes the
cancellation signal and the other BaseException-only raises such as
KeyboardInterrupt and SystemExit) it emits one error-level record whose
message embeds the dunder name of the target and the captured
creation-site stack formatted as text, followed by the truncated traceback
of the failure, and the coroutine then returns None. -/
theorem C6_create_catching_coro_behaviour {α : Type} (v : α) (nm : String)
    (ls : List LogRecord) (callerStack : List String) (e : PyExc)
    (h : e.cls.isExceptionSubclass = true) :
    (async_create_catching_coro ⟨nm, ⟨ls, .ok v⟩⟩ callerStack).eff
      = ⟨ls, .ok (some v)⟩ ∧
    (async_create_catching_coro (α := α) ⟨nm, ⟨ls, .error e⟩⟩ callerStack).eff
      = ⟨ls ++ [⟨loggingModuleName, ERROR_LEVEL,
          "Exception in " ++ nm ++ " called from\n " ++ String.join callerStack
            ++ "\n" ++ formatExc e.tb e⟩], .ok none⟩ := by
  constructor
  · rfl
  · have hdrop : (callerStack ++ [createCatchingCoroFrame]).dropLast = callerStack :=
      List.dropLast_concat
    simp [async_create_catching_coro, catch_log_coro_exception, h,
      log_exception_cons_ok, moduleNameOf, coroWrapperFrame, hdrop]

/-- Witness for C6: a concrete target coroutine named async_update, once
succeeding with a value and once failing with a ValueError, wrapped from a
two-frame creation site. -/
theorem C6_witness :
    (⟨.exception "ValueError", "x", ["  File job.py, in work\n"]⟩ : PyExc).cls.isExceptionSubclass
        = true ∧
    ((async_create_catching_coro ⟨"async_update", ⟨[], .ok 42⟩⟩
        ["  File main.py, in setup\n", "  File sched.py, in add_job\n"]).eff
      = ⟨[], .ok (some 42)⟩ ∧
    (async_create_catching_coro (α := Nat)
        ⟨"async_update",
          ⟨[], .error ⟨.exception "ValueError", "x", ["  File job.py, in work\n"]⟩⟩⟩
        ["  File main.py, in setup\n", "  File sched.py, in add_job\n"]).eff
      = ⟨[⟨loggingModuleName, ERROR_LEVEL,
          "Exception in async_update called from\n " ++
            String.join ["  File main.py, in setup\n", "  File sched.py, in add_job\n"]
            ++ "\n" ++
            formatExc ["  File job.py, in work\n"]
              ⟨.exception "ValueError", "x", ["  File job.py, in work\n"]⟩⟩],
          .ok none⟩) :=
  ⟨rfl, C6_create_catching_coro_behaviour 42 "async_update" []
    ["  File main.py, in setup\n", "  File sched.py, in add_job\n"]
    ⟨.exception "ValueError", "x", ["  File job.py, in work\n"]⟩ rfl⟩

/-- Every element of a list of naturals is bounded by the maximum used to
pick a fresh handler identity. -/
theorem mem_le_foldr_max : ∀ (l : List Nat), ∀ h ∈ l, h ≤ l.foldr max 0 := by
  intro l
  induction l with
  | nil => intro h hmem; cases hmem
  | cons a t ih =>
    intro h hmem
    simp only [List.foldr_cons]
    rcases List.mem_cons.mp hmem with rfl | hmem
    · exact Nat.le_max_left _ _
    · exact le_trans (ih h hmem) (Nat.le_max_right _ _)

/-- Running the migration loop over a snapshot whose entries are all
distinct from the queue handler, while the live list is that snapshot
followed by the queue handler: every entry is moved off the live list, in
order, onto the migrated list. -/
theorem migrate_loop (qh : Nat) :
    ∀ (l mig : List Nat), (∀ h ∈ l, h ≠ qh) →
      l.foldl (migrateStep qh) (l ++ [qh], mig) = ([qh], mig ++ l) := by
  intro l
  induction l with
  | nil => intro mig _; simp
  | cons a t ih =>
    intro mig hne
    have ha : a ≠ qh := hne a (List.mem_cons_self a t)
    have hstep : migrateStep qh (a :: (t ++ [qh]), mig) a = (t ++ [qh], mig ++ [a]) := by
      simp [migrateStep, ha, removeHandler]
    simp only [List.foldl_cons, List.cons_append]
    rw [hstep]
    have := ih (mig ++ [a]) (fun h hm => hne h (List.mem_cons_of_mem a hm))
    rw [this]
    simp

/-- C7: after async_activate_log_queue_handler runs on a root logger with
any list of top-level handlers, the freshly created queue handler is the
only top-level handler remaining; every previously installed handler has
been removed from the top-level chain and handed, in order, to the queue
listener (the Sink Set), which has been started. -/
theorem C7_activate_migrates_all_handlers (hs : List Nat) :
    (async_activate_log_queue_handler hs).rootHandlers = [freshHandlerId hs] ∧
    (async_activate_log_queue_handler hs).listenerHandlers = hs ∧
    (async_activate_log_queue_handler hs).listenerStarted = true := by
  have hfresh : ∀ h ∈ hs, h ≠ freshHandlerId hs := by
    intro h hmem heq
    have hle : h ≤ hs.foldr max 0 := mem_le_foldr_max hs h hmem
    simp only [freshHandlerId] at heq
    omega
  have hnotmem : freshHandlerId hs ∉ hs := fun hmem => hfresh _ hmem rfl
  have hadd : addHandler hs (freshHandlerId hs) = hs ++ [freshHandlerId hs] := by
    simp [addHandler, hnotmem]
  have hloop : (hs ++ [freshHandlerId hs]).foldl (migrateStep (freshHandlerId hs))
      (hs ++ [freshHandlerId hs], []) = ([freshHandlerId hs], hs) := by
    rw [List.foldl_append]
    rw [migrate_loop (freshHandlerId hs) hs [] hfresh]
    simp [migrateStep]
  constructor
  · simp only [async_activate_log_queue_handler, hadd, hloop]
  constructor
  · simp only [async_activate_log_queue_handler, hadd, hloop]
  · rfl

/-- C8: close on the queue handler signals one stop to the listener when a
reference is held and clears the reference; a second close finds no
reference and signals no further stop, and no branch of close can raise,
so closing twice is safe. -/
theorem C8_close_idempotent_shutdown (s : HomeAssistantQueueHandler) :
    (s.close).listenerAttached = false ∧
    (s.close).listenerStopCalls
      = s.listenerStopCalls + (if s.listenerAttached then 1 else 0) ∧
    ((s.close).close).listenerStopCalls = (s.close).listenerStopCalls ∧
    ((s.close).close).listenerAttached = false := by
  rcases s with ⟨att, stops, closes⟩
  cases att <;> simp [HomeAssistantQueueHandler.close]

end HaLogging
